import Mathlib

/-!
Verification of the Rigol DP832 control and discovery client.

The core of the repository is two Python modules:

* `src/rigol_dp832.py` — class `DP832`, a per-channel SCPI instrument client:
  it validates the channel id, formats a command string, sends it over a
  transport (`self.inst.query` / `self.inst.write`), and parses the textual
  reply.
* `src/discovery.py` and `src/rigol_dp832/test_ip.py` — a discovery scanner
  (ping sweep then identification probes) and two single-address probes.

Shallow embedding conventions used below:

* The transport is an oracle `inst : String → String` mapping each query
  command to the reply of the instrument; every operation also returns the list of
  I/O events (queries and writes) it issued, so "performs no I/O" is the
  statement that the event list is empty.
* Python exceptions become `Except PyError`; `ValueError` (from channel
  validation and from `float()`) and `IndexError` (from list indexing) are the
  two kinds that arise in the modelled code.
* Python string primitives are modelled by structurally recursive functions on
  the character list: `str.strip()` by `pyStrip`, `str.upper()` by `pyUpper`,
  `s.split(",")` by `pySplitChar ','` (both keep empty fields and map the
  empty string to a one-element list), and the containment test `pat in s` by
  `strContains`.
* Python `float()` on a reply field is modelled by `parseFloat? : String →
  Option PyFloat`, an executable parser of sign/digits/fraction/exponent
  decimal literals. `PyFloat` is the exact (unnormalised) rational value
  `num / den` read off the literal text; the claims under verification concern
  which field of a reply is parsed and whether parsing fails, never
  floating-point rounding, and no arithmetic is ever performed on a parsed
  value.
* Numeric arguments rendered into command strings (f-string interpolation of
  a Python float) are rendered with `PyFloat.render`; no claim inspects the
  text of a written command, only whether a write happened.
-/

/-- The Python exceptions arising in the modelled code: `ValueError` (channel
validation, `float()` on a non-numeric string) and `IndexError` (list index
out of range), each carrying its message string. -/
inductive PyError where
  | valueError (msg : String)
  | indexError (msg : String)
deriving DecidableEq, Repr

/-- The message text of a Python exception. -/
def PyError.message : PyError → String
  | .valueError m => m
  | .indexError m => m

/-- One I/O interaction with the transport: a query (command sent, reply
awaited) or a plain write. The command text sent is recorded. -/
inductive Event where
  | query (cmd : String)
  | write (cmd : String)
deriving DecidableEq, Repr

/-- Python list indexing `l[i]` with negative-index support: `l[-k]` is
`l[len l - k]`; any out-of-range index yields `none` (Python raises
`IndexError`). -/
def pyGet {α : Type} (l : List α) (i : ℤ) : Option α :=
  if i < 0 then
    let j : ℤ := (l.length : ℤ) + i
    if j < 0 then none else l.get? j.toNat
  else
    l.get? i.toNat

/-- Python `str.strip()`: drop leading and trailing whitespace. (The Python
whitespace alphabet additionally has `\x0b`/`\x0c`; no claim depends on
those.) -/
def pyStrip (s : String) : String :=
  ⟨((s.data.dropWhile Char.isWhitespace).reverse.dropWhile Char.isWhitespace).reverse⟩

/-- Python `str.upper()` (ASCII case map; all tokens compared in the code are
ASCII). -/
def pyUpper (s : String) : String :=
  ⟨s.data.map Char.toUpper⟩

/-- Split a character list at every occurrence of `sep`, keeping empty
pieces; the empty list gives one empty piece. -/
def listSplit (sep : Char) : List Char → List (List Char)
  | [] => [[]]
  | c :: t =>
    let r := listSplit sep t
    if c = sep then [] :: r
    else
      match r with
      | [] => [[c]]
      | h :: rest => (c :: h) :: rest

/-- Python `s.split(sep)` for a one-character separator (the code only splits
on `","`): keeps empty fields, and `"".split(",") = [""]`. -/
def pySplitChar (sep : Char) (s : String) : List String :=
  (listSplit sep s.data).map (fun l => ⟨l⟩)

/-- Helper for `strContains`: does the pattern occur contiguously in the
list? The empty pattern occurs everywhere. -/
def containsAux (p : List Char) : List Char → Bool
  | [] => p.isEmpty
  | c :: t => p.isPrefixOf (c :: t) || containsAux p t

/-- Python substring containment `pat in s` (for `"RIGOL" in id_response`):
true when `pat` occurs contiguously in `s`; the empty pattern is contained in
everything. -/
def strContains (s pat : String) : Bool :=
  containsAux pat.data s.data

/-- Value of a digit list read in base 10 (digits assumed checked). -/
def digitsVal (cs : List Char) : ℕ :=
  cs.foldl (fun n c => 10 * n + (c.toNat - 48)) 0

/-- Nonempty all-digit list parsed in base 10, else `none`. -/
def digitsVal? (cs : List Char) : Option ℕ :=
  if cs.isEmpty then none
  else if cs.all Char.isDigit then some (digitsVal cs) else none

/-- The exact rational value `num / den` read off a Python float literal,
kept unnormalised (so `"5.002"` is `⟨5002, 1000⟩`). The client never computes
with a parsed value — it only returns it — so this exact representation is a
faithful model; IEEE-754 rounding is deliberately not modelled. -/
structure PyFloat where
  num : ℤ
  den : ℕ
deriving DecidableEq, Repr

/-- The rational value a `PyFloat` denotes (interpretation only; no claim
performs arithmetic on parsed values). -/
def PyFloat.toRat (q : PyFloat) : ℚ :=
  (q.num : ℚ) / (q.den : ℚ)

/-- Decimal rendering of a numeric argument interpolated into a command
string (stands for the Python `str(float)` rendering; no claim inspects this text). -/
def PyFloat.render (q : PyFloat) : String :=
  toString q.num ++ "/" ++ toString q.den

/-- Mantissa of a Python float literal: `digits`, `digits.digits`, `digits.`
or `.digits` (at least one digit overall), as an exact numerator/denominator
pair with denominator `10 ^ (number of fraction digits)`. -/
def parseMantissa? (cs : List Char) : Option (ℕ × ℕ) :=
  match listSplit '.' cs with
  | [ip] => (digitsVal? ip).map (fun n => (n, 1))
  | [ip, fp] =>
    if ip.isEmpty && fp.isEmpty then none
    else if (ip.all Char.isDigit) && (fp.all Char.isDigit) then
      some (digitsVal ip * 10 ^ fp.length + digitsVal fp, 10 ^ fp.length)
    else none
  | _ => none

/-- Model of Python `float(s)` on the decimal-literal fragment the instrument
speaks: optional sign, mantissa, optional `e`/`E` exponent with optional
sign; the result is the exact value as a `PyFloat`, `none` where Python
raises `ValueError`. (Python additionally accepts surrounding whitespace,
`inf`/`nan` and digit underscores; no reply the claims quantify over uses
those forms.) -/
def parseFloat? (s : String) : Option PyFloat :=
  let cs0 := s.data.map (fun c => if c = 'E' then 'e' else c)
  let sgncs : ℤ × List Char :=
    match cs0 with
    | '+' :: t => (1, t)
    | '-' :: t => (-1, t)
    | t => (1, t)
  match listSplit 'e' sgncs.2 with
  | [m] => (parseMantissa? m).map (fun p => ⟨sgncs.1 * p.1, p.2⟩)
  | [m, ex] =>
    match parseMantissa? m with
    | none => none
    | some p =>
      let esgncs : Bool × List Char :=
        match ex with
        | '+' :: t => (false, t)
        | '-' :: t => (true, t)
        | t => (false, t)
      match digitsVal? esgncs.2 with
      | none => none
      | some e =>
        if esgncs.1 then some ⟨sgncs.1 * p.1, p.2 * 10 ^ e⟩
        else some ⟨sgncs.1 * (p.1 * 10 ^ e), p.2⟩
  | _ => none

/-- The error that Python `float()` raises on a non-numeric string: a
`ValueError` whose message ends with the offending text. -/
def floatConvError (s : String) : PyError :=
  .valueError ("could not convert string to float: " ++ s)

/-- The Python `IndexError` from an out-of-range list index. -/
def listIndexError : PyError :=
  .indexError "list index out of range"

/-- Result of a `DP832` method: the value or exception, paired with the list
of I/O events the method issued on the transport, in order. -/
abbrev DPResult (α : Type) := Except PyError α × List Event

namespace DP832

/-- Model of `DP832._validate_channel` (src/rigol_dp832.py:78-81): raise
`ValueError(f"Channel must be 1, 2, or 3, got {channel}")` unless the channel
is 1, 2 or 3. -/
def validate_channel (channel : ℤ) : Except PyError Unit :=
  if channel = 1 ∨ channel = 2 ∨ channel = 3 then .ok ()
  else .error (.valueError ("Channel must be 1, 2, or 3, got " ++ toString channel))

/-- The device identification record returned by `DP832.id`. -/
structure IdInfo where
  manufacturer : String
  model : String
  serial_number : String
  version : String
deriving DecidableEq, Repr

/-- Model of `DP832.id` (src/rigol_dp832.py:83-96): query `*IDN?`, strip, split on
commas, and take the first four fields; indexing past the end raises
`IndexError` (fields are read in index order, so the recorded error is the
index that fails first). -/
def id (inst : String → String) : DPResult IdInfo :=
  let id_str := pySplitChar ',' (pyStrip (inst "*IDN?"))
  let evs : List Event := [.query "*IDN?"]
  match pyGet id_str 0 with
  | none => (.error listIndexError, evs)
  | some manufacturer =>
    match pyGet id_str 1 with
    | none => (.error listIndexError, evs)
    | some model =>
      match pyGet id_str 2 with
      | none => (.error listIndexError, evs)
      | some serial_number =>
        match pyGet id_str 3 with
        | none => (.error listIndexError, evs)
        | some version =>
          (.ok ⟨manufacturer, model, serial_number, version⟩, evs)

/-- Model of `DP832.get_output_state` (src/rigol_dp832.py:98-110): validate the
channel, query `:OUTP:STAT? CH<n>`, strip, and compare to the literal
`"ON"`. -/
def get_output_state (inst : String → String) (channel : ℤ) : DPResult Bool :=
  match validate_channel channel with
  | .error e => (.error e, [])
  | .ok _ =>
    let cmd := ":OUTP:STAT? CH" ++ toString channel
    let state := pyStrip (inst cmd)
    (.ok (state == "ON"), [.query cmd])

/-- Model of `DP832.set_output_state` (src/rigol_dp832.py:112-123): validate the
channel, then write `:OUTP:STAT CH<n>,<ON|OFF>`. -/
def set_output_state (inst : String → String) (channel : ℤ) (state : Bool) :
    DPResult Unit :=
  match validate_channel channel with
  | .error e => (.error e, [])
  | .ok _ =>
    let state_str := if state then "ON" else "OFF"
    let cmd := ":OUTP:STAT CH" ++ toString channel ++ "," ++ state_str
    (.ok (), [.write cmd])

/-- The setpoint pair returned by `DP832.get_channel_settings`. -/
structure ChannelSettings where
  voltage : PyFloat
  current : PyFloat
deriving DecidableEq, Repr

/-- Model of `DP832.get_channel_settings` (src/rigol_dp832.py:125-140): validate the
channel, query `:APPL? CH<n>`, strip, split on commas, and take
`float(settings[-2])` as voltage and `float(settings[-1])` as current
(evaluated in that order, as in the Python dict literal). -/
def get_channel_settings (inst : String → String) (channel : ℤ) :
    DPResult ChannelSettings :=
  match validate_channel channel with
  | .error e => (.error e, [])
  | .ok _ =>
    let cmd := ":APPL? CH" ++ toString channel
    let settings := pySplitChar ',' (pyStrip (inst cmd))
    let evs : List Event := [.query cmd]
    match pyGet settings (-2) with
    | none => (.error listIndexError, evs)
    | some vs =>
      match parseFloat? vs with
      | none => (.error (floatConvError vs), evs)
      | some voltage =>
        match pyGet settings (-1) with
        | none => (.error listIndexError, evs)
        | some cs =>
          match parseFloat? cs with
          | none => (.error (floatConvError cs), evs)
          | some current => (.ok ⟨voltage, current⟩, evs)

/-- Model of `DP832.set_channel_settings` (src/rigol_dp832.py:142-153): validate the
channel, then write `:APPL CH<n>,<voltage>,<current>`. -/
def set_channel_settings (inst : String → String) (channel : ℤ)
    (voltage current : PyFloat) : DPResult Unit :=
  match validate_channel channel with
  | .error e => (.error e, [])
  | .ok _ =>
    let cmd := ":APPL CH" ++ toString channel ++ "," ++ voltage.render
                ++ "," ++ current.render
    (.ok (), [.write cmd])

/-- Model of `DP832.measure_voltage` (src/rigol_dp832.py:155-167): validate the
channel, query `:MEAS? CH<n>`, strip, and parse the whole reply as a
float. -/
def measure_voltage (inst : String → String) (channel : ℤ) : DPResult PyFloat :=
  match validate_channel channel with
  | .error e => (.error e, [])
  | .ok _ =>
    let cmd := ":MEAS? CH" ++ toString channel
    let voltage := pyStrip (inst cmd)
    match parseFloat? voltage with
    | none => (.error (floatConvError voltage), [.query cmd])
    | some v => (.ok v, [.query cmd])

/-- Model of `DP832.measure_current` (src/rigol_dp832.py:169-181): validate the
channel, query `:MEAS:CURR? CH<n>`, strip, and parse the whole reply as a
float. -/
def measure_current (inst : String → String) (channel : ℤ) : DPResult PyFloat :=
  match validate_channel channel with
  | .error e => (.error e, [])
  | .ok _ =>
    let cmd := ":MEAS:CURR? CH" ++ toString channel
    let current := pyStrip (inst cmd)
    match parseFloat? current with
    | none => (.error (floatConvError current), [.query cmd])
    | some v => (.ok v, [.query cmd])

/-- Model of `DP832.measure_power` (src/rigol_dp832.py:183-195): validate the channel,
query `:MEAS:ALL? CH<n>`, strip, split on commas, and take
`float(measurements[2])` (power is the third value). -/
def measure_power (inst : String → String) (channel : ℤ) : DPResult PyFloat :=
  match validate_channel channel with
  | .error e => (.error e, [])
  | .ok _ =>
    let cmd := ":MEAS:ALL? CH" ++ toString channel
    let measurements := pySplitChar ',' (pyStrip (inst cmd))
    let evs : List Event := [.query cmd]
    match pyGet measurements 2 with
    | none => (.error listIndexError, evs)
    | some ps =>
      match parseFloat? ps with
      | none => (.error (floatConvError ps), evs)
      | some p => (.ok p, evs)

/-- The readback triple returned by `DP832.measure_all`. -/
structure Measurement where
  voltage : PyFloat
  current : PyFloat
  power : PyFloat
deriving DecidableEq, Repr

/-- Model of `DP832.measure_all` (src/rigol_dp832.py:197-213): validate the channel,
query `:MEAS:ALL? CH<n>`, strip, split on commas, and take
`float(measurements[0])`, `float(measurements[1])`, `float(measurements[2])`
in that order. -/
def measure_all (inst : String → String) (channel : ℤ) : DPResult Measurement :=
  match validate_channel channel with
  | .error e => (.error e, [])
  | .ok _ =>
    let cmd := ":MEAS:ALL? CH" ++ toString channel
    let measurements := pySplitChar ',' (pyStrip (inst cmd))
    let evs : List Event := [.query cmd]
    match pyGet measurements 0 with
    | none => (.error listIndexError, evs)
    | some vs =>
      match parseFloat? vs with
      | none => (.error (floatConvError vs), evs)
      | some voltage =>
        match pyGet measurements 1 with
        | none => (.error listIndexError, evs)
        | some is0 =>
          match parseFloat? is0 with
          | none => (.error (floatConvError is0), evs)
          | some current =>
            match pyGet measurements 2 with
            | none => (.error listIndexError, evs)
            | some ps =>
              match parseFloat? ps with
              | none => (.error (floatConvError ps), evs)
              | some power => (.ok ⟨voltage, current, power⟩, evs)

/-- Model of `DP832.get_output_mode` (src/rigol_dp832.py:215-227): validate the
channel, query `:OUTP:MODE? CH<n>`, strip, and return the reply verbatim. -/
def get_output_mode (inst : String → String) (channel : ℤ) : DPResult String :=
  match validate_channel channel with
  | .error e => (.error e, [])
  | .ok _ =>
    let cmd := ":OUTP:MODE? CH" ++ toString channel
    let mode := pyStrip (inst cmd)
    (.ok mode, [.query cmd])

/-- Model of `DP832.get_ocp_enabled` (src/rigol_dp832.py:229-241): validate, query
`:OUTP:OCP? CH<n>`, strip, compare to `"ON"`. -/
def get_ocp_enabled (inst : String → String) (channel : ℤ) : DPResult Bool :=
  match validate_channel channel with
  | .error e => (.error e, [])
  | .ok _ =>
    let cmd := ":OUTP:OCP? CH" ++ toString channel
    let state := pyStrip (inst cmd)
    (.ok (state == "ON"), [.query cmd])

/-- Model of `DP832.set_ocp_enabled` (src/rigol_dp832.py:243-254): validate, write
`:OUTP:OCP CH<n>,<ON|OFF>`. -/
def set_ocp_enabled (inst : String → String) (channel : ℤ) (enabled : Bool) :
    DPResult Unit :=
  match validate_channel channel with
  | .error e => (.error e, [])
  | .ok _ =>
    let state := if enabled then "ON" else "OFF"
    let cmd := ":OUTP:OCP CH" ++ toString channel ++ "," ++ state
    (.ok (), [.write cmd])

/-- Model of `DP832.get_ocp_value` (src/rigol_dp832.py:256-268): validate, query
`:OUTP:OCP:VAL? CH<n>`, strip, parse as float. -/
def get_ocp_value (inst : String → String) (channel : ℤ) : DPResult PyFloat :=
  match validate_channel channel with
  | .error e => (.error e, [])
  | .ok _ =>
    let cmd := ":OUTP:OCP:VAL? CH" ++ toString channel
    let value := pyStrip (inst cmd)
    match parseFloat? value with
    | none => (.error (floatConvError value), [.query cmd])
    | some v => (.ok v, [.query cmd])

/-- Model of `DP832.set_ocp_value` (src/rigol_dp832.py:270-280): validate, write
`:OUTP:OCP:VAL CH<n>,<current>`. -/
def set_ocp_value (inst : String → String) (channel : ℤ) (current : PyFloat) :
    DPResult Unit :=
  match validate_channel channel with
  | .error e => (.error e, [])
  | .ok _ =>
    let cmd := ":OUTP:OCP:VAL CH" ++ toString channel ++ "," ++ current.render
    (.ok (), [.write cmd])

/-- Model of `DP832.get_ovp_enabled` (src/rigol_dp832.py:282-294): validate, query
`:OUTP:OVP? CH<n>`, strip, compare to `"ON"`. -/
def get_ovp_enabled (inst : String → String) (channel : ℤ) : DPResult Bool :=
  match validate_channel channel with
  | .error e => (.error e, [])
  | .ok _ =>
    let cmd := ":OUTP:OVP? CH" ++ toString channel
    let state := pyStrip (inst cmd)
    (.ok (state == "ON"), [.query cmd])

/-- Model of `DP832.set_ovp_enabled` (src/rigol_dp832.py:296-307): validate, write
`:OUTP:OVP CH<n>,<ON|OFF>`. -/
def set_ovp_enabled (inst : String → String) (channel : ℤ) (enabled : Bool) :
    DPResult Unit :=
  match validate_channel channel with
  | .error e => (.error e, [])
  | .ok _ =>
    let state := if enabled then "ON" else "OFF"
    let cmd := ":OUTP:OVP CH" ++ toString channel ++ "," ++ state
    (.ok (), [.write cmd])

/-- Model of `DP832.get_ovp_value` (src/rigol_dp832.py:309-321): validate, query
`:OUTP:OVP:VAL? CH<n>`, strip, parse as float. -/
def get_ovp_value (inst : String → String) (channel : ℤ) : DPResult PyFloat :=
  match validate_channel channel with
  | .error e => (.error e, [])
  | .ok _ =>
    let cmd := ":OUTP:OVP:VAL? CH" ++ toString channel
    let value := pyStrip (inst cmd)
    match parseFloat? value with
    | none => (.error (floatConvError value), [.query cmd])
    | some v => (.ok v, [.query cmd])

/-- Model of `DP832.set_ovp_value` (src/rigol_dp832.py:323-333): validate, write
`:OUTP:OVP:VAL CH<n>,<voltage>`. -/
def set_ovp_value (inst : String → String) (channel : ℤ) (voltage : PyFloat) :
    DPResult Unit :=
  match validate_channel channel with
  | .error e => (.error e, [])
  | .ok _ =>
    let cmd := ":OUTP:OVP:VAL CH" ++ toString channel ++ "," ++ voltage.render
    (.ok (), [.write cmd])

/-- Model of `DP832.get_ocp_alarm` (src/rigol_dp832.py:335-347): validate, query
`:OUTP:OCP:ALAR? CH<n>`, strip, compare to the literal `"YES"`. -/
def get_ocp_alarm (inst : String → String) (channel : ℤ) : DPResult Bool :=
  match validate_channel channel with
  | .error e => (.error e, [])
  | .ok _ =>
    let cmd := ":OUTP:OCP:ALAR? CH" ++ toString channel
    let alarm := pyStrip (inst cmd)
    (.ok (alarm == "YES"), [.query cmd])

/-- Model of `DP832.clear_ocp_alarm` (src/rigol_dp832.py:349-358): validate, write
`:OUTP:OCP:CLEAR CH<n>`. -/
def clear_ocp_alarm (inst : String → String) (channel : ℤ) : DPResult Unit :=
  match validate_channel channel with
  | .error e => (.error e, [])
  | .ok _ =>
    let cmd := ":OUTP:OCP:CLEAR CH" ++ toString channel
    (.ok (), [.write cmd])

/-- Model of `DP832.get_ovp_alarm` (src/rigol_dp832.py:360-372): validate, query
`:OUTP:OVP:ALAR? CH<n>`, strip, compare to the literal `"ON"`. -/
def get_ovp_alarm (inst : String → String) (channel : ℤ) : DPResult Bool :=
  match validate_channel channel with
  | .error e => (.error e, [])
  | .ok _ =>
    let cmd := ":OUTP:OVP:ALAR? CH" ++ toString channel
    let alarm := pyStrip (inst cmd)
    (.ok (alarm == "ON"), [.query cmd])

/-- Model of `DP832.clear_ovp_alarm` (src/rigol_dp832.py:374-383): validate, write
`:OUTP:OVP:CLEAR CH<n>`. -/
def clear_ovp_alarm (inst : String → String) (channel : ℤ) : DPResult Unit :=
  match validate_channel channel with
  | .error e => (.error e, [])
  | .ok _ =>
    let cmd := ":OUTP:OVP:CLEAR CH" ++ toString channel
    (.ok (), [.write cmd])

end DP832

namespace Discovery

/-- Model of `test_dp832_connection` (src/discovery.py:40-58): probe one address. The
whole transport interaction (open session, `*IDN?` query) is modelled by its
outcome `id_response : Except Unit String` — a reply string or a transport
error; the bare `except:` catches the latter and returns `None`. On a reply,
the reply is a match iff its uppercase contains `"RIGOL"` and `"DP832"`;
a match returns the stripped reply, a non-match returns `None`. -/
def test_dp832_connection (id_response : Except Unit String) : Option String :=
  match id_response with
  | .error _ => none
  | .ok r =>
    if strContains (pyUpper r) "RIGOL" && strContains (pyUpper r) "DP832" then
      some (pyStrip r)
    else none

/-- Model of `find_dp832_devices` (src/discovery.py:61-112): ping every host
`<base>.1` .. `<base>.254`, collect the responders, and if none responded
return `[]`; otherwise probe each responder and collect `(ip, device_id)`
pairs for the matches. `ping : String → Bool` models `ping_ip` (False on any
failure) and `probe : String → Option String` models `test_dp832_connection`
applied to that host. The source collects responders in thread-pool
completion order, which is nondeterministic; this embedding fixes the
sequential order 1..254 — the properties proved below do not depend on the
order. -/
def find_dp832_devices (ping : String → Bool) (probe : String → Option String)
    (network_base : String) : List (String × String) :=
  let responsive_ips :=
    ((List.range' 1 254).map (fun i => network_base ++ "." ++ toString i)).filter ping
  if responsive_ips.isEmpty then []
  else
    responsive_ips.filterMap (fun ip => (probe ip).map (fun device_id => (ip, device_id)))

/-- Model of `find_first_dp832` (src/discovery.py:115-127): run `find_dp832_devices`
and return `devices[0] if devices else None`. -/
def find_first_dp832 (ping : String → Bool) (probe : String → Option String)
    (network_base : String) : Option (String × String) :=
  match find_dp832_devices ping probe network_base with
  | [] => none
  | d :: _ => some d

end Discovery

namespace TestIp

/-- Model of `test_ip` (src/rigol_dp832/test_ip.py:22-52): probe one address; the
transport interaction is modelled by its outcome as in
`Discovery.test_dp832_connection`. On a reply, a match requires the uppercase
reply to contain `"RIGOL"` and at least one of `"DP832"`, `"DP821"`,
`"DP712"`; a match returns the stripped reply, anything else (including any
transport error, caught by `except Exception:`) returns `None`. -/
def test_ip (id_response : Except Unit String) : Option String :=
  match id_response with
  | .error _ => none
  | .ok r =>
    let id_upper := pyUpper r
    if strContains id_upper "RIGOL"
        && (["DP832", "DP821", "DP712"].any (fun model => strContains id_upper model)) then
      some (pyStrip r)
    else none

end TestIp

instance {ε α : Type} [DecidableEq ε] [DecidableEq α] : DecidableEq (Except ε α) := fun a b =>
  match a, b with
  | .error e, .error f => decidable_of_iff (e = f) (by simp)
  | .error _, .ok _ => isFalse (by simp)
  | .ok _, .error _ => isFalse (by simp)
  | .ok x, .ok y => decidable_of_iff (x = y) (by simp)

/-- The `ValueError` an out-of-range channel id raises. -/
def invalidChannelError (channel : ℤ) : PyError :=
  .valueError ("Channel must be 1, 2, or 3, got " ++ toString channel)

/-- C1: for every channel id outside {1, 2, 3}, every channel-scoped
operation of the instrument client — `get_output_state`, `set_output_state`,
`get_channel_settings`, `set_channel_settings`, `measure_voltage`,
`measure_current`, `measure_power`, `measure_all`, `get_output_mode`, and all
OCP/OVP getters, setters, alarm queries and clears — fails with the
`ValueError` raised by `_validate_channel` (the InvalidArgument of the spec) and
issues no query or write on the transport (its event trace is empty),
whatever the transport would reply and whatever the value arguments are. -/
theorem invalid_channel_rejected_without_io (c : ℤ)
    (h : c ≠ 1 ∧ c ≠ 2 ∧ c ≠ 3) (inst : String → String) (b : Bool)
    (v w : PyFloat) :
    DP832.get_output_state inst c = (.error (invalidChannelError c), []) ∧
    DP832.set_output_state inst c b = (.error (invalidChannelError c), []) ∧
    DP832.get_channel_settings inst c = (.error (invalidChannelError c), []) ∧
    DP832.set_channel_settings inst c v w = (.error (invalidChannelError c), []) ∧
    DP832.measure_voltage inst c = (.error (invalidChannelError c), []) ∧
    DP832.measure_current inst c = (.error (invalidChannelError c), []) ∧
    DP832.measure_power inst c = (.error (invalidChannelError c), []) ∧
    DP832.measure_all inst c = (.error (invalidChannelError c), []) ∧
    DP832.get_output_mode inst c = (.error (invalidChannelError c), []) ∧
    DP832.get_ocp_enabled inst c = (.error (invalidChannelError c), []) ∧
    DP832.set_ocp_enabled inst c b = (.error (invalidChannelError c), []) ∧
    DP832.get_ocp_value inst c = (.error (invalidChannelError c), []) ∧
    DP832.set_ocp_value inst c v = (.error (invalidChannelError c), []) ∧
    DP832.get_ovp_enabled inst c = (.error (invalidChannelError c), []) ∧
    DP832.set_ovp_enabled inst c b = (.error (invalidChannelError c), []) ∧
    DP832.get_ovp_value inst c = (.error (invalidChannelError c), []) ∧
    DP832.set_ovp_value inst c v = (.error (invalidChannelError c), []) ∧
    DP832.get_ocp_alarm inst c = (.error (invalidChannelError c), []) ∧
    DP832.clear_ocp_alarm inst c = (.error (invalidChannelError c), []) ∧
    DP832.get_ovp_alarm inst c = (.error (invalidChannelError c), []) ∧
    DP832.clear_ovp_alarm inst c = (.error (invalidChannelError c), []) := by
  have hv : DP832.validate_channel c = .error (invalidChannelError c) := by
    simp [DP832.validate_channel, invalidChannelError, h.1, h.2.1, h.2.2]
  refine ⟨?_, ?_, ?_, ?_, ?_, ?_, ?_, ?_, ?_, ?_, ?_, ?_, ?_, ?_, ?_, ?_, ?_,
    ?_, ?_, ?_, ?_⟩ <;>
    simp only [DP832.get_output_state, DP832.set_output_state,
      DP832.get_channel_settings, DP832.set_channel_settings,
      DP832.measure_voltage, DP832.measure_current, DP832.measure_power,
      DP832.measure_all, DP832.get_output_mode, DP832.get_ocp_enabled,
      DP832.set_ocp_enabled, DP832.get_ocp_value, DP832.set_ocp_value,
      DP832.get_ovp_enabled, DP832.set_ovp_enabled, DP832.get_ovp_value,
      DP832.set_ovp_value, DP832.get_ocp_alarm, DP832.clear_ocp_alarm,
      DP832.get_ovp_alarm, DP832.clear_ovp_alarm, hv]

/-- Witness for C1: the fully concrete instance at channel 0 with a transport
that always replies `"ON"`: every channel-scoped operation returns the
channel `ValueError` and an empty event trace. -/
theorem invalid_channel_rejected_without_io_witness :
    DP832.get_output_state (fun _ => "ON") 0 = (.error (invalidChannelError 0), []) ∧
    DP832.set_output_state (fun _ => "ON") 0 true = (.error (invalidChannelError 0), []) ∧
    DP832.get_channel_settings (fun _ => "ON") 0 = (.error (invalidChannelError 0), []) ∧
    DP832.set_channel_settings (fun _ => "ON") 0 ⟨5, 1⟩ ⟨1, 1⟩ = (.error (invalidChannelError 0), []) ∧
    DP832.measure_voltage (fun _ => "ON") 0 = (.error (invalidChannelError 0), []) ∧
    DP832.measure_current (fun _ => "ON") 0 = (.error (invalidChannelError 0), []) ∧
    DP832.measure_power (fun _ => "ON") 0 = (.error (invalidChannelError 0), []) ∧
    DP832.measure_all (fun _ => "ON") 0 = (.error (invalidChannelError 0), []) ∧
    DP832.get_output_mode (fun _ => "ON") 0 = (.error (invalidChannelError 0), []) ∧
    DP832.get_ocp_enabled (fun _ => "ON") 0 = (.error (invalidChannelError 0), []) ∧
    DP832.set_ocp_enabled (fun _ => "ON") 0 true = (.error (invalidChannelError 0), []) ∧
    DP832.get_ocp_value (fun _ => "ON") 0 = (.error (invalidChannelError 0), []) ∧
    DP832.set_ocp_value (fun _ => "ON") 0 ⟨5, 1⟩ = (.error (invalidChannelError 0), []) ∧
    DP832.get_ovp_enabled (fun _ => "ON") 0 = (.error (invalidChannelError 0), []) ∧
    DP832.set_ovp_enabled (fun _ => "ON") 0 true = (.error (invalidChannelError 0), []) ∧
    DP832.get_ovp_value (fun _ => "ON") 0 = (.error (invalidChannelError 0), []) ∧
    DP832.set_ovp_value (fun _ => "ON") 0 ⟨5, 1⟩ = (.error (invalidChannelError 0), []) ∧
    DP832.get_ocp_alarm (fun _ => "ON") 0 = (.error (invalidChannelError 0), []) ∧
    DP832.clear_ocp_alarm (fun _ => "ON") 0 = (.error (invalidChannelError 0), []) ∧
    DP832.get_ovp_alarm (fun _ => "ON") 0 = (.error (invalidChannelError 0), []) ∧
    DP832.clear_ovp_alarm (fun _ => "ON") 0 = (.error (invalidChannelError 0), []) :=
  invalid_channel_rejected_without_io 0 (by decide) (fun _ => "ON") true ⟨5, 1⟩ ⟨1, 1⟩

/-- C2: for every identification-reply outcome, each single-address probe
(`test_dp832_connection` in src/discovery.py and `test_ip` in
src/rigol_dp832/test_ip.py) returns the stripped identification string if and
only if the uppercased reply contains the vendor token `"RIGOL"` and at least
one of the model tokens that probe accepts ({"DP832"} for the discovery probe,
{"DP832", "DP821", "DP712"} for `test_ip`); on a transport error it returns
`none`, and on a reply it returns either the stripped reply or `none` (it is
a total function — it never raises). -/
theorem single_address_probe_classification (s : String) :
    Discovery.test_dp832_connection (Except.error ()) = none ∧
    TestIp.test_ip (Except.error ()) = none ∧
    (Discovery.test_dp832_connection (Except.ok s) = some (pyStrip s) ∨
      Discovery.test_dp832_connection (Except.ok s) = none) ∧
    (TestIp.test_ip (Except.ok s) = some (pyStrip s) ∨
      TestIp.test_ip (Except.ok s) = none) ∧
    (Discovery.test_dp832_connection (Except.ok s) = some (pyStrip s) ↔
      (strContains (pyUpper s) "RIGOL" = true ∧
        strContains (pyUpper s) "DP832" = true)) ∧
    (TestIp.test_ip (Except.ok s) = some (pyStrip s) ↔
      (strContains (pyUpper s) "RIGOL" = true ∧
        (strContains (pyUpper s) "DP832" = true ∨
          strContains (pyUpper s) "DP821" = true ∨
          strContains (pyUpper s) "DP712" = true))) := by
  refine ⟨rfl, rfl, ?_, ?_, ?_, ?_⟩ <;>
    simp only [Discovery.test_dp832_connection, TestIp.test_ip, List.any_cons,
      List.any_nil, Bool.or_false]
  · by_cases h1 : strContains (pyUpper s) "RIGOL" <;>
      by_cases h2 : strContains (pyUpper s) "DP832" <;> simp [h1, h2]
  · by_cases h1 : strContains (pyUpper s) "RIGOL" <;>
      by_cases h2 : strContains (pyUpper s) "DP832" <;>
      by_cases h3 : strContains (pyUpper s) "DP821" <;>
      by_cases h4 : strContains (pyUpper s) "DP712" <;> simp [h1, h2, h3, h4]
  · by_cases h1 : strContains (pyUpper s) "RIGOL" <;>
      by_cases h2 : strContains (pyUpper s) "DP832" <;> simp [h1, h2]
  · by_cases h1 : strContains (pyUpper s) "RIGOL" <;>
      by_cases h2 : strContains (pyUpper s) "DP832" <;>
      by_cases h3 : strContains (pyUpper s) "DP821" <;>
      by_cases h4 : strContains (pyUpper s) "DP712" <;> simp [h1, h2, h3, h4]

/-- C3 counterexample: on the malformed identification reply `"A,B,C"` (three
comma-separated fields where four are expected), `DP832.id` fails with the
generic `IndexError` whose message is the constant
`"list index out of range"` — it is not an error naming the raw reply text
`"A,B,C"` or the operation `id` attempted, refuting the claim that every
parsing failure surfaces as a ParseError naming both. -/
theorem parse_error_naming_counterexample :
    (DP832.id (fun _ => "A,B,C")).1 =
      Except.error (PyError.indexError "list index out of range") ∧
    strContains (PyError.indexError "list index out of range").message "A,B,C" = false ∧
    strContains (PyError.indexError "list index out of range").message "id" = false := by
  refine ⟨rfl, by decide, by decide⟩

/-- C3 amended: parsing failures surface as exceptions, never as silent
default values — but not as the ParseError of the spec naming reply and operation.
For a valid channel, when the stripped `:MEAS? CH<n>` reply is not a float
literal, `measure_voltage` fails with the `ValueError` from Python
`float()`, whose message names the offending stripped reply text (but not the
operation); and when the stripped `*IDN?` reply has fewer than four
comma-separated fields, `id` fails with an `IndexError` whose constant
message names neither the reply nor the operation. -/
theorem parse_failures_raise_not_default (inst : String → String) (c : ℤ)
    (h : c = 1 ∨ c = 2 ∨ c = 3)
    (hbad : parseFloat? (pyStrip (inst (":MEAS? CH" ++ toString c))) = none)
    (hshort : (pySplitChar ',' (pyStrip (inst "*IDN?"))).length < 4) :
    (DP832.measure_voltage inst c).1 =
      Except.error (PyError.valueError
        ("could not convert string to float: "
          ++ pyStrip (inst (":MEAS? CH" ++ toString c)))) ∧
    (DP832.id inst).1 =
      Except.error (PyError.indexError "list index out of range") := by
  have hv : DP832.validate_channel c = .ok () := by
    rcases h with h | h | h <;> subst h <;> rfl
  constructor
  · simp only [DP832.measure_voltage, hv, hbad, floatConvError]
  · have h3 : pyGet (pySplitChar ',' (pyStrip (inst "*IDN?"))) 3 = none := by
      simp only [pyGet]
      rw [if_neg (by norm_num)]
      refine List.get?_eq_none.mpr ?_
      omega
    simp only [DP832.id]
    cases e0 : pyGet (pySplitChar ',' (pyStrip (inst "*IDN?"))) 0 <;>
      cases e1 : pyGet (pySplitChar ',' (pyStrip (inst "*IDN?"))) 1 <;>
      cases e2 : pyGet (pySplitChar ',' (pyStrip (inst "*IDN?"))) 2 <;>
      simp [e0, e1, e2, h3, listIndexError]

/-- Witness for the amended theorem of C3: a transport replying `"abc"` to every
query (so `:MEAS? CH1` yields the non-float `"abc"` and `*IDN?` yields a
single field) makes `measure_voltage 1` fail with the float `ValueError`
naming `"abc"` and `id` fail with the `IndexError`. -/
theorem parse_failures_raise_not_default_witness :
    (DP832.measure_voltage (fun _ => "abc") 1).1 =
      Except.error (PyError.valueError "could not convert string to float: abc") ∧
    (DP832.id (fun _ => "abc")).1 =
      Except.error (PyError.indexError "list index out of range") :=
  parse_failures_raise_not_default (fun _ => "abc") 1 (Or.inl rfl)
    (by decide) (by decide)

/-- C4: for every valid channel and every transport, `get_ocp_alarm` returns
`true` exactly when the stripped alarm-query reply is the literal `"YES"`,
while `get_ovp_alarm` returns `true` exactly when its stripped reply is the
literal `"ON"` — the two alarm checks use different sentinel tokens. -/
theorem alarm_sentinel_tokens (c : ℤ) (h : c = 1 ∨ c = 2 ∨ c = 3)
    (inst : String → String) :
    ((DP832.get_ocp_alarm inst c).1 = .ok true ↔
      pyStrip (inst (":OUTP:OCP:ALAR? CH" ++ toString c)) = "YES") ∧
    ((DP832.get_ovp_alarm inst c).1 = .ok true ↔
      pyStrip (inst (":OUTP:OVP:ALAR? CH" ++ toString c)) = "ON") := by
  have hv : DP832.validate_channel c = .ok () := by
    rcases h with h | h | h <;> subst h <;> rfl
  constructor
  · simp [DP832.get_ocp_alarm, hv]
  · simp [DP832.get_ovp_alarm, hv]

/-- Witness for C4: on channel 1 with a transport replying `"YES"` to
everything, the OCP alarm reads true exactly because the reply is `"YES"`,
and the truth of the OVP alarm is equivalent to `"YES" = "ON"` (i.e. false). -/
theorem alarm_sentinel_tokens_witness :
    ((DP832.get_ocp_alarm (fun _ => "YES") 1).1 = .ok true ↔
      pyStrip ((fun _ => "YES") (":OUTP:OCP:ALAR? CH" ++ toString (1 : ℤ))) = "YES") ∧
    ((DP832.get_ovp_alarm (fun _ => "YES") 1).1 = .ok true ↔
      pyStrip ((fun _ => "YES") (":OUTP:OVP:ALAR? CH" ++ toString (1 : ℤ))) = "ON") :=
  alarm_sentinel_tokens 1 (Or.inl rfl) (fun _ => "YES")

/-- C5: for every valid channel and every transport, `get_output_state`
returns the boolean "stripped reply equals the literal `"ON"`": an `"ON"`
reply yields true, and `"OFF"` or any other token yields false (literal
string equality, not a general boolean parse). -/
theorem output_state_literal_on (c : ℤ) (h : c = 1 ∨ c = 2 ∨ c = 3)
    (inst : String → String) :
    ((DP832.get_output_state inst c).1 = .ok true ↔
      pyStrip (inst (":OUTP:STAT? CH" ++ toString c)) = "ON") ∧
    (pyStrip (inst (":OUTP:STAT? CH" ++ toString c)) ≠ "ON" →
      (DP832.get_output_state inst c).1 = .ok false) := by
  have hv : DP832.validate_channel c = .ok () := by
    rcases h with h | h | h <;> subst h <;> rfl
  constructor
  · simp [DP832.get_output_state, hv]
  · intro hne
    simp [DP832.get_output_state, hv, hne]

/-- Witness for C5: on channel 1, a transport replying `"ON"` yields
`ok true` (the reply equals the literal), and one replying `"1"` satisfies
the any-other-token clause. -/
theorem output_state_literal_on_witness :
    (((DP832.get_output_state (fun _ => "ON") 1).1 = .ok true ↔
        pyStrip ((fun _ => "ON") (":OUTP:STAT? CH" ++ toString (1 : ℤ))) = "ON") ∧
      (pyStrip ((fun _ => "ON") (":OUTP:STAT? CH" ++ toString (1 : ℤ))) ≠ "ON" →
        (DP832.get_output_state (fun _ => "ON") 1).1 = .ok false)) ∧
    (DP832.get_output_state (fun _ => "1") 1).1 = .ok false :=
  ⟨output_state_literal_on 1 (Or.inl rfl) (fun _ => "ON"),
    (output_state_literal_on 1 (Or.inl rfl) (fun _ => "1")).2 (by decide)⟩

/-- C6 counterexample: `get_output_mode` does not restrict its result to
{"CV", "CC", "UR"} over all possible replies: with the instrument replying
`"XX"` on channel 1 it returns `"XX"`, which is none of the three mode
tokens. -/
theorem output_mode_counterexample :
    (DP832.get_output_mode (fun _ => "XX") 1).1 = Except.ok "XX" ∧
    ("XX" ≠ "CV" ∧ "XX" ≠ "CC" ∧ "XX" ≠ "UR") :=
  ⟨rfl, by decide⟩

/-- C6 amended: for every valid channel, `get_output_mode` returns the
stripped raw reply verbatim; in particular its result is one of `"CV"`,
`"CC"`, `"UR"` exactly when the stripped instrument reply is one of those
three tokens (which the wire protocol specifies for a real instrument, but
which the code does not enforce). -/
theorem output_mode_returns_raw_reply (c : ℤ) (h : c = 1 ∨ c = 2 ∨ c = 3)
    (inst : String → String) :
    (DP832.get_output_mode inst c).1 =
      .ok (pyStrip (inst (":OUTP:MODE? CH" ++ toString c))) ∧
    ((pyStrip (inst (":OUTP:MODE? CH" ++ toString c)) = "CV" ∨
        pyStrip (inst (":OUTP:MODE? CH" ++ toString c)) = "CC" ∨
        pyStrip (inst (":OUTP:MODE? CH" ++ toString c)) = "UR") →
      ((DP832.get_output_mode inst c).1 = .ok "CV" ∨
        (DP832.get_output_mode inst c).1 = .ok "CC" ∨
        (DP832.get_output_mode inst c).1 = .ok "UR")) := by
  have hv : DP832.validate_channel c = .ok () := by
    rcases h with h | h | h <;> subst h <;> rfl
  have hm : (DP832.get_output_mode inst c).1 =
      .ok (pyStrip (inst (":OUTP:MODE? CH" ++ toString c))) := by
    simp [DP832.get_output_mode, hv]
  refine ⟨hm, ?_⟩
  intro hmode
  rcases hmode with hx | hx | hx <;> rw [hm, hx]
  · exact Or.inl rfl
  · exact Or.inr (Or.inl rfl)
  · exact Or.inr (Or.inr rfl)

/-- Witness for the amended theorem of C6: channel 1 with a transport replying
`"CV"`: the result is the stripped reply `"CV"`, one of the three tokens. -/
theorem output_mode_returns_raw_reply_witness :
    (DP832.get_output_mode (fun _ => "CV") 1).1 =
      .ok (pyStrip ((fun _ => "CV") (":OUTP:MODE? CH" ++ toString (1 : ℤ)))) ∧
    ((pyStrip ((fun _ => "CV") (":OUTP:MODE? CH" ++ toString (1 : ℤ))) = "CV" ∨
        pyStrip ((fun _ => "CV") (":OUTP:MODE? CH" ++ toString (1 : ℤ))) = "CC" ∨
        pyStrip ((fun _ => "CV") (":OUTP:MODE? CH" ++ toString (1 : ℤ))) = "UR") →
      ((DP832.get_output_mode (fun _ => "CV") 1).1 = .ok "CV" ∨
        (DP832.get_output_mode (fun _ => "CV") 1).1 = .ok "CC" ∨
        (DP832.get_output_mode (fun _ => "CV") 1).1 = .ok "UR")) :=
  output_mode_returns_raw_reply 1 (Or.inl rfl) (fun _ => "CV")

/-- The second-to-last element of a list of the shape `pre ++ [a, b]` under
Python indexing `[-2]`. -/
theorem pyGet_last_two_fst {α : Type} (pre : List α) (a b : α) :
    pyGet (pre ++ [a, b]) (-2) = some a := by
  simp only [pyGet]
  rw [if_pos (by norm_num)]
  have hj : ((pre ++ [a, b]).length : ℤ) + (-2) = (pre.length : ℤ) := by
    simp only [List.length_append, List.length_cons, List.length_nil]
    push_cast
    omega
  rw [hj, if_neg (by omega)]
  have ht : ((pre.length : ℤ)).toNat = pre.length := by omega
  rw [ht, List.get?_append_right (le_refl pre.length)]
  simp

/-- The last element of a list of the shape `pre ++ [a, b]` under Python
indexing `[-1]`. -/
theorem pyGet_last_two_snd {α : Type} (pre : List α) (a b : α) :
    pyGet (pre ++ [a, b]) (-1) = some b := by
  simp only [pyGet]
  rw [if_pos (by norm_num)]
  have hj : ((pre ++ [a, b]).length : ℤ) + (-1) = ((pre.length + 1 : ℕ) : ℤ) := by
    simp only [List.length_append, List.length_cons, List.length_nil]
    push_cast
    omega
  rw [hj, if_neg (by omega)]
  have ht : (((pre.length + 1 : ℕ) : ℤ)).toNat = pre.length + 1 := by omega
  rw [ht, List.get?_append_right (by omega)]
  have : pre.length + 1 - pre.length = 1 := by omega
  rw [this]
  simp

/-- C7: for every valid channel, whenever the stripped `:APPL? CH<n>` reply
splits on commas into any prefix of fields followed by two final fields that
parse as floats, `get_channel_settings` returns the second-to-last field as
the voltage and the last field as the current — independently of how many
fields precede them. -/
theorem channel_settings_last_two_fields (c : ℤ) (h : c = 1 ∨ c = 2 ∨ c = 3)
    (inst : String → String) (pre : List String) (sv si : String)
    (v w : PyFloat)
    (hfields : pySplitChar ',' (pyStrip (inst (":APPL? CH" ++ toString c))) =
      pre ++ [sv, si])
    (hv2 : parseFloat? sv = some v) (hi : parseFloat? si = some w) :
    (DP832.get_channel_settings inst c).1 = .ok ⟨v, w⟩ := by
  have hval : DP832.validate_channel c = .ok () := by
    rcases h with h | h | h <;> subst h <;> rfl
  simp only [DP832.get_channel_settings, hval, hfields, pyGet_last_two_fst,
    pyGet_last_two_snd, hv2, hi]

/-- Witness for C7: channel 1, reply `"CH1:30V/3A,5.002,1.001"` (one leading
field before the two numeric fields): the settings are voltage 5.002 and
current 1.001 (as exact literals 5002/1000 and 1001/1000). -/
theorem channel_settings_last_two_fields_witness :
    (DP832.get_channel_settings (fun _ => "CH1:30V/3A,5.002,1.001") 1).1 =
      .ok ⟨⟨5002, 1000⟩, ⟨1001, 1000⟩⟩ :=
  channel_settings_last_two_fields 1 (Or.inl rfl)
    (fun _ => "CH1:30V/3A,5.002,1.001") ["CH1:30V/3A"] "5.002" "1.001"
    ⟨5002, 1000⟩ ⟨1001, 1000⟩ rfl rfl rfl

/-- C8: for every valid channel, whenever the stripped `:MEAS:ALL? CH<n>`
reply splits on commas into exactly three fields that parse as floats
`<v>,<i>,<p>`, `measure_all` returns `{voltage := v, current := i,
power := p}` and `measure_power` on the same reply returns the third field
`p`. -/
theorem measure_all_and_power_fields (c : ℤ) (h : c = 1 ∨ c = 2 ∨ c = 3)
    (inst : String → String) (vs is0 ps : String) (v w p : PyFloat)
    (hfields : pySplitChar ',' (pyStrip (inst (":MEAS:ALL? CH" ++ toString c))) =
      [vs, is0, ps])
    (hv2 : parseFloat? vs = some v) (hi : parseFloat? is0 = some w)
    (hp : parseFloat? ps = some p) :
    (DP832.measure_all inst c).1 = .ok ⟨v, w, p⟩ ∧
    (DP832.measure_power inst c).1 = .ok p := by
  have hval : DP832.validate_channel c = .ok () := by
    rcases h with h | h | h <;> subst h <;> rfl
  have g0 : pyGet [vs, is0, ps] 0 = some vs := rfl
  have g1 : pyGet [vs, is0, ps] 1 = some is0 := rfl
  have g2 : pyGet [vs, is0, ps] 2 = some ps := rfl
  constructor
  · simp only [DP832.measure_all, hval, hfields, g0, g1, g2, hv2, hi, hp]
  · simp only [DP832.measure_power, hval, hfields, g2, hp]

/-- Witness for C8: channel 1, reply `"5.002,1.001,5.007"`: `measure_all`
yields voltage 5.002, current 1.001, power 5.007 (as exact literals) and
`measure_power` yields 5.007. -/
theorem measure_all_and_power_fields_witness :
    (DP832.measure_all (fun _ => "5.002,1.001,5.007") 1).1 =
      .ok ⟨⟨5002, 1000⟩, ⟨1001, 1000⟩, ⟨5007, 1000⟩⟩ ∧
    (DP832.measure_power (fun _ => "5.002,1.001,5.007") 1).1 =
      .ok ⟨5007, 1000⟩ :=
  measure_all_and_power_fields 1 (Or.inl rfl) (fun _ => "5.002,1.001,5.007")
    "5.002" "1.001" "5.007" ⟨5002, 1000⟩ ⟨1001, 1000⟩ ⟨5007, 1000⟩ rfl rfl rfl rfl

/-- C9: when the reachability sweep finds no responsive host (the ping
predicate is false on every address), `find_dp832_devices` returns the empty
list (and, being a total function, raises nothing); and for every sweep
outcome, `find_first_dp832` returns exactly the head of the
`find_dp832_devices` list — `none` precisely when that list is empty,
otherwise its first element. -/
theorem discovery_empty_and_first (ping : String → Bool)
    (probe : String → Option String) (base : String)
    (ping2 : String → Bool) (probe2 : String → Option String) (base2 : String)
    (hping : ∀ ip, ping ip = false) :
    Discovery.find_dp832_devices ping probe base = [] ∧
    Discovery.find_first_dp832 ping2 probe2 base2 =
      (Discovery.find_dp832_devices ping2 probe2 base2).head? ∧
    (Discovery.find_first_dp832 ping2 probe2 base2 = none ↔
      Discovery.find_dp832_devices ping2 probe2 base2 = []) := by
  have hfil : ∀ l : List String, l.filter ping = [] := fun l =>
    List.filter_eq_nil.mpr (fun a _ => by simp [hping])
  refine ⟨?_, ?_, ?_⟩
  · simp [Discovery.find_dp832_devices, hfil]
  · cases hd : Discovery.find_dp832_devices ping2 probe2 base2 <;>
      simp [Discovery.find_first_dp832, hd]
  · cases hd : Discovery.find_dp832_devices ping2 probe2 base2 <;>
      simp [Discovery.find_first_dp832, hd]

/-- Witness for C9: with no host answering ping the sweep yields `[]`; and
for a sweep where only `10.0.0.20` responds and identifies, the first-match
variant returns the head of the device list. -/
theorem discovery_empty_and_first_witness :
    Discovery.find_dp832_devices (fun _ => false) (fun _ => some "x") "192.168.1" = [] ∧
    Discovery.find_first_dp832 (fun ip => ip == "10.0.0.20")
        (fun _ => some "RIGOL TECHNOLOGIES,DP832,S,V") "10.0.0" =
      (Discovery.find_dp832_devices (fun ip => ip == "10.0.0.20")
        (fun _ => some "RIGOL TECHNOLOGIES,DP832,S,V") "10.0.0").head? ∧
    (Discovery.find_first_dp832 (fun ip => ip == "10.0.0.20")
        (fun _ => some "RIGOL TECHNOLOGIES,DP832,S,V") "10.0.0" = none ↔
      Discovery.find_dp832_devices (fun ip => ip == "10.0.0.20")
        (fun _ => some "RIGOL TECHNOLOGIES,DP832,S,V") "10.0.0" = []) :=
  discovery_empty_and_first (fun _ => false) (fun _ => some "x") "192.168.1"
    (fun ip => ip == "10.0.0.20") (fun _ => some "RIGOL TECHNOLOGIES,DP832,S,V")
    "10.0.0" (fun _ => rfl)

/-- C10 counterexample: the reply `"RIGOL,DP821"` is accepted by `test_ip`
(src/rigol_dp832/test_ip.py), which returns the stripped reply, but rejected
by `test_dp832_connection` (src/discovery.py), which returns `none`: the two
model-token sets of the two probes are not equal and the probes do not always produce
the same classification. -/
theorem probe_duplicates_counterexample :
    TestIp.test_ip (Except.ok "RIGOL,DP821") = some "RIGOL,DP821" ∧
    Discovery.test_dp832_connection (Except.ok "RIGOL,DP821") = none :=
  ⟨rfl, rfl⟩

/-- C10 amended: the two single-address probes use different model-token
sets — `test_dp832_connection` accepts only `"DP832"` while `test_ip` also
accepts `"DP821"` and `"DP712"`, a strict superset — so they agree on a
transport error and on every reply whose uppercase either contains `"DP832"`
or contains neither `"DP821"` nor `"DP712"` (they differ exactly on
vendor-matching replies naming only one of the two extra models). -/
theorem probe_duplicates_agree_outside_extra_tokens (s : String)
    (h : strContains (pyUpper s) "DP832" = true ∨
      (strContains (pyUpper s) "DP821" = false ∧
        strContains (pyUpper s) "DP712" = false)) :
    TestIp.test_ip (Except.ok s) = Discovery.test_dp832_connection (Except.ok s) ∧
    TestIp.test_ip (Except.error ()) =
      Discovery.test_dp832_connection (Except.error ()) := by
  refine ⟨?_, rfl⟩
  simp only [TestIp.test_ip, Discovery.test_dp832_connection, List.any_cons,
    List.any_nil, Bool.or_false]
  rcases h with h | ⟨h1, h2⟩
  · simp [h]
  · simp [h1, h2]

/-- Witness for the amended theorem of C10: on the reply `"RIGOL,DP832"` (which
contains the shared token `"DP832"`) the two probes classify identically. -/
theorem probe_duplicates_agree_outside_extra_tokens_witness :
    TestIp.test_ip (Except.ok "RIGOL,DP832") =
      Discovery.test_dp832_connection (Except.ok "RIGOL,DP832") ∧
    TestIp.test_ip (Except.error ()) =
      Discovery.test_dp832_connection (Except.error ()) :=
  probe_duplicates_agree_outside_extra_tokens "RIGOL,DP832" (Or.inl (by decide))
